import Mathlib

/-!
Shallow embedding of the client-side data-synchronization layer of the
cy-collects storefront (React + Supabase).  Row types follow
`src/database.types.ts`; the operations are translated from the entity
context providers (`CartContext.tsx`, `ProductContext`, `ServiceContext`,
`CategoryContext`, `UserDetailsContext`).  Nullable columns become
`Option`, JavaScript truthiness coalescing (`x || d`) is embedded
explicitly, and the remote store is modelled as an explicit list of rows
threaded through each operation (success path of the PostgREST calls).
-/

namespace CyCollects

/-- Row of the `carts` table (`database.types.ts`). -/
structure CartRow where
  id : String
  user_id : Option String
  product_id : Option String
  service_id : Option String
  amount : Option Int
  created_at : String
deriving DecidableEq

/-- Row of the `products` table (`database.types.ts`). -/
structure Product where
  id : String
  name : Option String
  price : Option Int
  condition : Option String
  category_id : Option String
  media_url_front : Option String
  media_url_back : Option String
  created_at : String
deriving DecidableEq

/-- Row of the `categories` table (`database.types.ts`). -/
structure Category where
  id : String
  name : Option String
  active : Option Bool
  created_at : String
deriving DecidableEq

/-- Row of the `services` table (`database.types.ts`). -/
structure Service where
  id : String
  name : Option String
  price : Option Int
  media_url : Option String
  created_at : String
deriving DecidableEq

/-- Row of the `user_details` table (`database.types.ts`). -/
structure UserDetails where
  id : String
  user_id : Option String
  role : Option String
  created_at : String
deriving DecidableEq

/-- JavaScript `x || d` on a nullable number: `null` and `0` are falsy. -/
def jsNumOr (x : Option Int) (d : Int) : Int :=
  match x with
  | none => d
  | some a => if a = 0 then d else a

/-- JavaScript `x || d` on a nullable string: `null` and `""` are falsy. -/
def jsStrOr (x : Option String) (d : String) : String :=
  match x with
  | none => d
  | some s => if s = "" then d else s

/-- JavaScript `!x` on a `boolean | null` value: `!null = true`. -/
def jsNot (b : Option Bool) : Bool :=
  !(b == some true)

/-! ## Cart (CartContext.tsx)

The cart operations write through to the remote `carts` table and patch
the in-memory mirror (`setCart`).  `CartState` carries both sides; each
operation returns the next state together with the success flag
(`error === null`).  Remote `insert` is parametrised by the
server-generated `id` and `created_at` of the new row. -/

structure CartState where
  remote : List CartRow
  mirror : List CartRow
deriving DecidableEq

/-- Row predicate of the remote filters `.eq("user_id", u).eq("product_id", p)`. -/
def cartRowMatches (u p : String) (r : CartRow) : Bool :=
  r.user_id == some u && r.product_id == some p

/-- Function `removeFromCart` (CartContext.tsx lines 205-231): remote
`DELETE FROM carts WHERE user_id = u AND product_id = p`, then the local
mirror drops every item with `item.product_id === productId`. -/
def removeFromCart (u p : String) (s : CartState) : CartState × Bool :=
  (⟨s.remote.filter (fun r => !(cartRowMatches u p r)),
    s.mirror.filter (fun item => item.product_id != some p)⟩, true)

/-- Function `updateCartItem` (CartContext.tsx lines 264-300): `quantity <= 0`
delegates to `removeFromCart`; otherwise the remote update sets
`amount = quantity` on every row matching `(user_id, product_id)` and
`.single()` succeeds only when exactly one row matched, in which case the
mirror replaces every item with that `product_id` by the returned row. -/
def updateCartItem (u p : String) (quantity : Int) (s : CartState) : CartState × Bool :=
  if quantity ≤ 0 then removeFromCart u p s
  else
    match s.remote.filter (cartRowMatches u p) with
    | [r] =>
        let data := { r with amount := some quantity }
        (⟨s.remote.map (fun x => if cartRowMatches u p x then data else x),
          s.mirror.map (fun item => if item.product_id == some p then data else item)⟩,
         true)
    | _ =>
        -- `.single()` errors (zero or several rows): the remote update still
        -- landed, the mirror is left untouched, `{ error }` is returned.
        (⟨s.remote.map (fun x => if cartRowMatches u p x
            then { x with amount := some quantity } else x),
          s.mirror⟩, false)

/-- Function `addToCart` (CartContext.tsx lines 99-138): scan the local mirror for
an item with this `product_id`; if found, delegate to `updateCartItem`
with `(existingItem.amount || 0) + quantity`; otherwise insert a fresh row
with `amount = quantity` and prepend the returned row to the mirror. -/
def addToCart (u p : String) (quantity : Int) (newId newCreatedAt : String)
    (s : CartState) : CartState × Bool :=
  match s.mirror.find? (fun item => item.product_id == some p) with
  | some existingItem =>
      updateCartItem u p (jsNumOr existingItem.amount 0 + quantity) s
  | none =>
      let data : CartRow := ⟨newId, some u, some p, none, some quantity, newCreatedAt⟩
      (⟨s.remote ++ [data], data :: s.mirror⟩, true)

/-- Function `getCartTotal` (CartContext.tsx lines 329-335): sums `item.amount || 0`
(the comment in the source notes product prices are not incorporated). -/
def getCartTotal (cart : List CartRow) : Int :=
  cart.foldl (fun total item => total + jsNumOr item.amount 0) 0

/-- Function `getCartItemCount` (CartContext.tsx lines 337-339). -/
def getCartItemCount (cart : List CartRow) : Int :=
  cart.foldl (fun total item => total + jsNumOr item.amount 0) 0

/-! ## JavaScript string primitives, embedded at the character level
(structural definitions, so that concrete scenarios evaluate) -/

/-- The haystack contains `sub` as a contiguous run, scanning left to
right (the semantics of JavaScript `includes`). -/
def charListIncludes (sub : List Char) : List Char → Bool
  | [] => sub.isEmpty
  | c :: t => sub.isPrefixOf (c :: t) || charListIncludes sub t

/-- JavaScript `s.includes(sub)`. -/
def strIncludes (s sub : String) : Bool :=
  charListIncludes sub.data s.data

/-- JavaScript `s.toLowerCase()` (characterwise lowercasing). -/
def jsToLower (s : String) : String :=
  ⟨s.data.map Char.toLower⟩

/-- JavaScript `s.trim()`: strip leading and trailing whitespace. -/
def jsTrim (s : String) : String :=
  ⟨((s.data.dropWhile Char.isWhitespace).reverse.dropWhile Char.isWhitespace).reverse⟩

/-- Lexicographic comparison of character lists; `charListLe a b` embeds
`a.localeCompare(b) <= 0` under codepoint collation. -/
def charListLe : List Char → List Char → Bool
  | [], _ => true
  | _ :: _, [] => false
  | a :: as, b :: bs => if a = b then charListLe as bs else decide (a < b)

/-! ## Products (ProductContext, src/unnamed/part_009) -/

/-- Function `searchProducts` (part_009 lines 226-233): a blank query (`!query.trim()`)
returns the whole collection; otherwise keep the products whose name,
lowercased, contains the lowercased query (`product.name?.toLowerCase()
.includes(lowercaseQuery)`; a `null` name is filtered out). -/
def searchProducts (products : List Product) (query : String) : List Product :=
  if jsTrim query = "" then products
  else
    let lowercaseQuery := jsToLower query
    products.filter (fun product =>
      match product.name with
      | some n => strIncludes (jsToLower n) lowercaseQuery
      | none => false)

/-- ProductProvider `postgres_changes` INSERT handler (part_009 lines
87-105): `setProducts(prev => [newProduct, ...prev])`. -/
def applyProductInsert (row : Product) (prev : List Product) : List Product :=
  row :: prev

/-- ProductProvider `postgres_changes` UPDATE handler (part_009 lines
106-118): `prev.map(product => product.id === updatedProduct.id ?
updatedProduct : product)`. -/
def applyProductUpdate (row : Product) (prev : List Product) : List Product :=
  prev.map (fun product => if product.id == row.id then row else product)

/-- ProductProvider `postgres_changes` DELETE handler (part_009 lines
119-122): `prev.filter(product => product.id !== payload.old.id)`. -/
def applyProductDelete (oldId : String) (prev : List Product) : List Product :=
  prev.filter (fun product => product.id != oldId)

/-! ## Services (ServiceContext, src/unnamed/part_008) -/

/-- ServiceProvider `postgres_changes` INSERT handler (part_008 lines
72-74): `setServices(prev => [payload.new, ...prev])`. -/
def applyServiceInsert (row : Service) (prev : List Service) : List Service :=
  row :: prev

/-! ## Categories (CategoryContext, src/unnamed/part_011)

The category handlers keep the collection sorted with
`.sort((a, b) => (a.name || "").localeCompare(b.name || ""))`.
JavaScript `Array.prototype.sort` is stable; the default-locale collation
of `localeCompare` is embedded as the lexicographic order on the strings,
realised by the stable `List.mergeSort`. -/

def categorySortLe (a b : Category) : Bool :=
  charListLe (jsStrOr a.name "").data (jsStrOr b.name "").data

def sortCategories (l : List Category) : List Category :=
  l.mergeSort categorySortLe

/-- CategoryProvider `postgres_changes` UPDATE handler (part_011 lines
77-80): replace-by-id, then re-sort by name. -/
def applyCategoryUpdate (row : Category) (prev : List Category) : List Category :=
  sortCategories (prev.map (fun category => if category.id == row.id then row else category))

/-- Derived list `activeCategories` (part_011 line 184):
`categories.filter(category => category.active !== false)`. -/
def activeCategories (categories : List Category) : List Category :=
  categories.filter (fun category => category.active != some false)

/-- Function `toggleCategoryActive` (part_011 lines 166-174) together with the
resulting UPDATE echo: find the category in the mirror; if absent, fail;
otherwise issue `updateCategory(categoryId, { active: !category.active })`
and fold the echoed row (the stored row, which the mirror reflects, with
`active` patched) into the collection through the UPDATE handler. -/
def toggleCategoryActive (categories : List Category) (categoryId : String) :
    Option (List Category) :=
  match categories.find? (fun cat => cat.id == categoryId) with
  | none => none
  | some category =>
      let updatedRow := { category with active := some (jsNot category.active) }
      some (applyCategoryUpdate updatedRow categories)

/-! ## Container initialization (C6)

`fetchProducts` (part_009 lines 44-72) and `fetchCart` (CartContext.tsx
lines 53-90) run once on mount: set `loading = true`, await the select,
and dispatch on its outcome.  The outcome of the awaited remote call is
made explicit; the provider state after the run is returned.
(`ProductProvider` maintains `productsWithCategory` in lockstep with
`products` on every initialization path; the join annotation is
presentation-side and not modelled.) -/

inductive FetchOutcome (α : Type) where
  | success (data : Option (List α))
  | errorResult
  | exception
deriving DecidableEq

structure ContainerInitState (α : Type) where
  items : List α
  loading : Bool
  loggedError : Bool
deriving DecidableEq

/-- Run of `fetchProducts`: on a non-null error result or a thrown exception the
collection is emptied and the diagnostic logged; on success `items`
becomes `data || []`; `finally` clears `loading`. -/
def runProductInit (res : FetchOutcome Product) : ContainerInitState Product :=
  match res with
  | .success data => ⟨data.getD [], false, false⟩
  | .errorResult => ⟨[], false, true⟩
  | .exception => ⟨[], false, true⟩

/-- Run of `fetchCart`: with no authenticated user the cart is cleared without a
fetch; otherwise as `fetchProducts` (each branch clears `loading`). -/
def runCartFetch (user : Option String) (res : FetchOutcome CartRow) :
    ContainerInitState CartRow :=
  match user with
  | none => ⟨[], false, false⟩
  | some _ =>
      match res with
      | .success data => ⟨data.getD [], false, false⟩
      | .errorResult => ⟨[], false, true⟩
      | .exception => ⟨[], false, true⟩

/-! ## Lazy profile-row creation (UserDetailsProvider.fetchUserDetails,
src/src/database.types.ts lines 376-448)

One run of `fetchUserDetails` for an authenticated user: the select for
`user_id` returns `rows` (a select error takes the same branch as zero
rows); `creating` is the value of the in-memory `creatingRef` when the
zero-rows branch tests it.  The run's observable outcome is the list of
remote mutations issued, the resulting `userDetails` state, whether the
duplicate-rows warning was logged, and the flag value after the run. -/

inductive RemoteCmd where
  | insertUserDetails (userId : String) (role : String)
deriving DecidableEq

structure FetchUserDetailsResult where
  cmds : List RemoteCmd
  userDetails : Option UserDetails
  warned : Bool
  creatingAfter : Bool
deriving DecidableEq

/-- Run of `fetchUserDetails`: if the select found rows, use `allData[0]` and warn
when more than one was found (no deduplication, no mutation); with zero
rows, skip if `creatingRef.current` is set, else set the flag, issue one
insert with `role: "customer"`, and clear the flag (`insertOk` tells
whether the insert succeeded; `newId`/`newCreatedAt` are the
server-generated columns of the returned row). -/
def fetchUserDetails (userId newId newCreatedAt : String)
    (prev : Option UserDetails) (rows : List UserDetails)
    (creating : Bool) (insertOk : Bool) : FetchUserDetailsResult :=
  match rows with
  | first :: rest =>
      { cmds := [], userDetails := some first, warned := !rest.isEmpty,
        creatingAfter := creating }
  | [] =>
      if creating then
        { cmds := [], userDetails := prev, warned := false, creatingAfter := creating }
      else
        let newRow : UserDetails := ⟨newId, some userId, some "customer", newCreatedAt⟩
        { cmds := [RemoteCmd.insertUserDetails userId "customer"],
          userDetails := if insertOk then some newRow else none,
          warned := false, creatingAfter := false }

/-! ## Concrete rows for scenarios and witnesses -/

def demoCharizard : Product :=
  ⟨"prod-1", some "Charizard", some 100, some "NM", none, none, none, "2024-01-01"⟩

def demoBlastoise : Product :=
  ⟨"prod-2", some "Blastoise", some 50, some "NM", none, none, none, "2024-01-02"⟩

def demoCategory : Category :=
  ⟨"cat-1", some "Pokemon", some true, "2024-01-01"⟩

/-! ## Helper lemmas -/

lemma jsNumOr_zero (x : Option Int) : jsNumOr x 0 = x.getD 0 := by
  cases x with
  | none => rfl
  | some a =>
      by_cases h : a = 0 <;> simp [jsNumOr, h]

lemma foldl_add_amount (cart : List CartRow) (a : Int) :
    cart.foldl (fun total item => total + jsNumOr item.amount 0) a
      = a + (cart.map (fun item => item.amount.getD 0)).sum := by
  induction cart generalizing a with
  | nil => simp
  | cons x t ih =>
      rw [List.foldl_cons, ih, List.map_cons, List.sum_cons, jsNumOr_zero]
      ring

/-- Mapping a conditional replacement over a list on which the condition
never fires is the identity. -/
lemma map_ite_eq_self {α : Type} (f : α → Bool) (r : α) (l : List α)
    (h : ∀ x ∈ l, f x = false) :
    l.map (fun x => if f x then r else x) = l := by
  induction l with
  | nil => rfl
  | cons a t ih =>
      have ha : f a = false := h a (by simp)
      simp [ha, ih fun x hx => h x (by simp [hx])]

lemma charListIncludes_iff (sub s : List Char) :
    charListIncludes sub s = true ↔ sub <:+: s := by
  induction s with
  | nil => simp [charListIncludes, List.isEmpty_iff]
  | cons c t ih =>
      simp [charListIncludes, ih, List.infix_cons_iff]

/-! ## Theorems for the claims -/

/-- C9: for every cart state, `getCartTotal()` returns exactly the same
value as `getCartItemCount()`; both compute the sum of the `amount`
fields of all cart rows (a null `amount` counting as 0), with no product
or service prices involved. -/
theorem c9_cart_total_equals_item_count (cart : List CartRow) :
    getCartTotal cart = getCartItemCount cart ∧
    getCartTotal cart = (cart.map (fun item => item.amount.getD 0)).sum := by
  refine ⟨rfl, ?_⟩
  simpa using foldl_add_amount cart 0

/-- C10: the function `searchProducts` applied to a query that is empty or whitespace
only returns the entire product collection unchanged. -/
theorem c10_blank_query_returns_all (products : List Product) (query : String)
    (h : jsTrim query = "") :
    searchProducts products query = products := by
  simp [searchProducts, h]

/-- C10 witness: a whitespace-only query on the demo collection. -/
theorem c10_blank_query_returns_all_witness :
    jsTrim "   " = "" ∧
      searchProducts [demoCharizard, demoBlastoise] "   " = [demoCharizard, demoBlastoise] :=
  ⟨by decide, c10_blank_query_returns_all [demoCharizard, demoBlastoise] "   " (by decide)⟩

/-- C2 counterexample: the ProductProvider INSERT handler prepends
unconditionally, so applying the same insert event twice leaves two
entries with the same id, refuting id-based idempotence. -/
theorem c2_insert_not_idempotent_counterexample :
    applyProductInsert demoCharizard (applyProductInsert demoCharizard [])
        = [demoCharizard, demoCharizard] ∧
    ¬ ((applyProductInsert demoCharizard (applyProductInsert demoCharizard [])).countP
          (fun x => x.id == demoCharizard.id) = 1) := by
  exact ⟨rfl, by decide⟩

/-- C2 amended: the bridge insert handlers (ProductProvider and
ServiceProvider) prepend the event row unconditionally, with no check
whether an entry with that id is already present; hence applying the same
insert event twice adds two entries with that id. -/
theorem c2_insert_prepends_unconditionally (row : Product) (prev : List Product)
    (srow : Service) (sprev : List Service) :
    applyProductInsert row prev = row :: prev ∧
    (applyProductInsert row (applyProductInsert row prev)).countP
        (fun x => x.id == row.id)
      = prev.countP (fun x => x.id == row.id) + 2 ∧
    applyServiceInsert srow sprev = srow :: sprev := by
  refine ⟨rfl, ?_, rfl⟩
  simp only [applyProductInsert, List.countP_cons, beq_self_eq_true, if_true]

/-- C7: for every product list and non-blank query, the search
returns exactly the products whose name contains the query as a substring
ignoring case; in particular, searching "char" over Charizard and
Blastoise returns only the Charizard row. -/
theorem c7_search_case_insensitive_substring :
    (∀ (products : List Product) (query : String), jsTrim query ≠ "" →
        ∀ product,
          product ∈ searchProducts products query ↔
            product ∈ products ∧
              ∃ n, product.name = some n ∧
                (jsToLower query).data <:+: (jsToLower n).data) ∧
    searchProducts [demoCharizard, demoBlastoise] "char" = [demoCharizard] := by
  constructor
  · intro products query h product
    simp only [searchProducts, if_neg h, List.mem_filter]
    constructor
    · rintro ⟨hp, hcond⟩
      refine ⟨hp, ?_⟩
      cases hn : product.name with
      | none => rw [hn] at hcond; cases hcond
      | some n =>
          rw [hn] at hcond
          exact ⟨n, rfl, (charListIncludes_iff _ _).mp hcond⟩
    · rintro ⟨hp, n, hn, hinf⟩
      refine ⟨hp, ?_⟩
      rw [hn]
      exact (charListIncludes_iff _ _).mpr hinf
  · decide

/-- C7 witness: the concrete search over the demo rows. -/
theorem c7_search_case_insensitive_substring_witness :
    jsTrim "char" ≠ "" ∧
      (demoCharizard ∈ searchProducts [demoCharizard, demoBlastoise] "char" ↔
        demoCharizard ∈ [demoCharizard, demoBlastoise] ∧
          ∃ n, demoCharizard.name = some n ∧
            (jsToLower "char").data <:+: (jsToLower n).data) :=
  ⟨by decide,
   c7_search_case_insensitive_substring.1 [demoCharizard, demoBlastoise] "char"
     (by decide) demoCharizard⟩

/-- C6: for both containers, a failed initial fetch (error result or
thrown exception) leaves the collection empty, clears `loading`, and logs
a diagnostic; a successful fetch replaces the collection by exactly the
fetched rows. -/
theorem c6_initialize_failure_clean_state :
    (∀ res : FetchOutcome Product,
        res = FetchOutcome.errorResult ∨ res = FetchOutcome.exception →
          runProductInit res = ⟨[], false, true⟩) ∧
    (∀ rows : List Product,
        runProductInit (FetchOutcome.success (some rows)) = ⟨rows, false, false⟩) ∧
    (∀ (u : String) (res : FetchOutcome CartRow),
        res = FetchOutcome.errorResult ∨ res = FetchOutcome.exception →
          runCartFetch (some u) res = ⟨[], false, true⟩) ∧
    (∀ (u : String) (rows : List CartRow),
        runCartFetch (some u) (FetchOutcome.success (some rows)) = ⟨rows, false, false⟩) := by
  refine ⟨?_, fun rows => rfl, ?_, fun u rows => rfl⟩
  · rintro res (rfl | rfl) <;> rfl
  · rintro u res (rfl | rfl) <;> rfl

/-- C6 witness: concrete failing fetches for both containers. -/
theorem c6_initialize_failure_clean_state_witness :
    runProductInit FetchOutcome.errorResult = ⟨[], false, true⟩ ∧
      runCartFetch (some "user-1") FetchOutcome.exception = ⟨[], false, true⟩ :=
  ⟨c6_initialize_failure_clean_state.1 FetchOutcome.errorResult (Or.inl rfl),
   c6_initialize_failure_clean_state.2.2.1 "user-1" FetchOutcome.exception (Or.inr rfl)⟩

def demoUserDetails : UserDetails := ⟨"ud-1", some "user-1", some "customer", "t1"⟩

def demoUserDetails2 : UserDetails := ⟨"ud-2", some "user-1", some "customer", "t2"⟩

/-- C5: a `user_details` lookup finding zero rows (with the reentrancy
flag clear) issues exactly one insert with role "customer"; a lookup
entered while the flag is set issues no insert at all; and when several
rows are found the first is used, the warning is logged, and no mutation
is issued. -/
theorem c5_lazy_profile_row_creation :
    (∀ (userId newId newCreatedAt : String) (prev : Option UserDetails) (insertOk : Bool),
        fetchUserDetails userId newId newCreatedAt prev [] false insertOk
          = ⟨[RemoteCmd.insertUserDetails userId "customer"],
             if insertOk then some ⟨newId, some userId, some "customer", newCreatedAt⟩
             else none,
             false, false⟩) ∧
    (∀ (userId newId newCreatedAt : String) (prev : Option UserDetails)
        (rows : List UserDetails) (insertOk : Bool),
        (fetchUserDetails userId newId newCreatedAt prev rows true insertOk).cmds = []) ∧
    (∀ (userId newId newCreatedAt : String) (prev : Option UserDetails)
        (first : UserDetails) (rest : List UserDetails) (creating insertOk : Bool),
        rest ≠ [] →
          (fetchUserDetails userId newId newCreatedAt prev (first :: rest) creating
              insertOk).userDetails = some first ∧
          (fetchUserDetails userId newId newCreatedAt prev (first :: rest) creating
              insertOk).warned = true ∧
          (fetchUserDetails userId newId newCreatedAt prev (first :: rest) creating
              insertOk).cmds = []) := by
  refine ⟨fun _ _ _ _ _ => rfl, ?_, ?_⟩
  · intro userId newId newCreatedAt prev rows insertOk
    cases rows <;> rfl
  · intro userId newId newCreatedAt prev first rest creating insertOk h
    obtain ⟨x, xs, rfl⟩ := List.exists_cons_of_ne_nil h
    exact ⟨rfl, rfl, rfl⟩

/-- C5 witness: the zero-rows insert and the duplicate-rows warning at
concrete inputs. -/
theorem c5_lazy_profile_row_creation_witness :
    (fetchUserDetails "user-1" "ud-1" "t1" none [] false true).cmds
        = [RemoteCmd.insertUserDetails "user-1" "customer"] ∧
      [demoUserDetails2] ≠ ([] : List UserDetails) ∧
      (fetchUserDetails "user-1" "ud-x" "t" none [demoUserDetails, demoUserDetails2]
          false true).warned = true := by
  refine ⟨?_, by decide, ?_⟩
  · rw [c5_lazy_profile_row_creation.1 "user-1" "ud-1" "t1" none true]
  · exact (c5_lazy_profile_row_creation.2.2 "user-1" "ud-x" "t" none demoUserDetails
      [demoUserDetails2] false true (by decide)).2.1

def demoCategory2 : Category := ⟨"cat-2", some "Yu-Gi-Oh", some true, "2024-01-02"⟩

/-- C4: the bridge UPDATE handlers replace the entry whose id matches the
event row (every other entry unchanged, positions preserved for the
product handler); an event whose id is absent leaves the collection
exactly as it was (for the category handler, which re-sorts, on the
sorted collections the provider maintains), and never adds an entry (the
category result is a permutation of the by-id replacement, so nothing is
inserted). -/
theorem c4_bridge_update_replace_by_id :
    (∀ (row : Product) (prev : List Product),
        (∀ x ∈ prev, x.id ≠ row.id) → applyProductUpdate row prev = prev) ∧
    (∀ (row : Product) (prev : List Product),
        (applyProductUpdate row prev).length = prev.length ∧
          ∀ i : Nat,
            (applyProductUpdate row prev)[i]?
              = (prev[i]?).map (fun x => if x.id == row.id then row else x)) ∧
    (∀ (row : Category) (prev : List Category),
        (applyCategoryUpdate row prev).Perm
          (prev.map (fun c => if c.id == row.id then row else c))) ∧
    (∀ (row : Category) (prev : List Category),
        prev.Pairwise (fun a b => categorySortLe a b = true) →
        (∀ x ∈ prev, x.id ≠ row.id) → applyCategoryUpdate row prev = prev) := by
  refine ⟨?_, ?_, ?_, ?_⟩
  · intro row prev h
    exact map_ite_eq_self (fun x => x.id == row.id) row prev
      fun x hx => beq_eq_false_iff_ne.mpr (h x hx)
  · intro row prev
    exact ⟨List.length_map _ _, fun i => List.getElem?_map _ _ i⟩
  · intro row prev
    exact List.mergeSort_perm _ _
  · intro row prev hsorted h
    have hm : prev.map (fun c => if c.id == row.id then row else c) = prev :=
      map_ite_eq_self (fun c => c.id == row.id) row prev
        fun x hx => beq_eq_false_iff_ne.mpr (h x hx)
    simp only [applyCategoryUpdate, sortCategories, hm]
    exact List.mergeSort_of_sorted hsorted

/-- C4 witness: an absent-id update drops the event for both handlers. -/
theorem c4_bridge_update_replace_by_id_witness :
    applyProductUpdate demoBlastoise [demoCharizard] = [demoCharizard] ∧
      applyCategoryUpdate demoCategory2 [demoCategory] = [demoCategory] :=
  ⟨c4_bridge_update_replace_by_id.1 demoBlastoise [demoCharizard] (by decide),
   c4_bridge_update_replace_by_id.2.2.2 demoCategory2 [demoCategory]
     (List.pairwise_singleton _ _) (by decide)⟩

/-- C8: toggling a category whose `active` flag is true patches the row to
`active = false` and folds the echo back into the collection: the row
survives with its other fields unchanged, the collection keeps its
length (nothing is deleted), it stays a permutation of the by-id
replacement, and the derived `activeCategories` list no longer contains
that id. -/
theorem c8_toggle_active_category_frame (categories : List Category)
    (categoryId : String) (cat : Category)
    (hfind : categories.find? (fun c => c.id == categoryId) = some cat)
    (hactive : cat.active = some true) :
    toggleCategoryActive categories categoryId
        = some (applyCategoryUpdate { cat with active := some false } categories) ∧
    (applyCategoryUpdate { cat with active := some false } categories).length
        = categories.length ∧
    { cat with active := some false } ∈
        applyCategoryUpdate { cat with active := some false } categories ∧
    (applyCategoryUpdate { cat with active := some false } categories).Perm
        (categories.map (fun c =>
          if c.id == cat.id then { cat with active := some false } else c)) ∧
    ∀ c ∈ activeCategories (applyCategoryUpdate { cat with active := some false } categories),
      c.id ≠ cat.id := by
  have hjs : jsNot cat.active = false := by rw [hactive]; rfl
  refine ⟨?_, ?_, ?_, List.mergeSort_perm _ _, ?_⟩
  · simp only [toggleCategoryActive, hfind, hjs]
  · simp only [applyCategoryUpdate, sortCategories, List.length_mergeSort, List.length_map]
  · simp only [applyCategoryUpdate, sortCategories, List.mem_mergeSort]
    exact List.mem_map.mpr
      ⟨cat, List.mem_of_find?_eq_some hfind, by simp⟩
  · intro c hc hcid
    rw [activeCategories, List.mem_filter] at hc
    obtain ⟨hmem, hcond⟩ := hc
    rw [applyCategoryUpdate, sortCategories, List.mem_mergeSort] at hmem
    obtain ⟨x, hx, hxe⟩ := List.mem_map.mp hmem
    by_cases hid : (x.id == ({ cat with active := some false } : Category).id) = true
    · rw [if_pos hid] at hxe
      rw [← hxe] at hcond
      simp at hcond
    · rw [if_neg hid] at hxe
      apply hid
      rw [← hxe] at hcid
      exact beq_iff_eq.mpr hcid

/-- C8 witness: toggling the demo category. -/
theorem c8_toggle_active_category_frame_witness :
    toggleCategoryActive [demoCategory] "cat-1"
        = some (applyCategoryUpdate { demoCategory with active := some false }
            [demoCategory]) ∧
      ∀ c ∈ activeCategories
          (applyCategoryUpdate { demoCategory with active := some false } [demoCategory]),
        c.id ≠ demoCategory.id :=
  ⟨(c8_toggle_active_category_frame [demoCategory] "cat-1" demoCategory (by decide) rfl).1,
   (c8_toggle_active_category_frame [demoCategory] "cat-1" demoCategory
      (by decide) rfl).2.2.2.2⟩

def demoCartRow : CartRow := ⟨"cart-1", some "user-1", some "prod-1", none, some 2, "t1"⟩

def demoCartState : CartState := ⟨[demoCartRow], [demoCartRow]⟩

/-- C3: calling `updateCartItem` with a non-positive quantity is exactly
`removeFromCart` (deleting the row for that product from remote and
mirror alike), and no run of `updateCartItem` ever stores a row with a
non-positive amount: every row of the resulting mirror was either already
there or carries the new positive amount. -/
theorem c3_set_quantity_nonpositive_removes (u p : String) (n : Int) (s : CartState) :
    (n ≤ 0 →
      updateCartItem u p n s = removeFromCart u p s ∧
      (∀ r ∈ (updateCartItem u p n s).1.mirror, r.product_id ≠ some p) ∧
      (∀ r ∈ (updateCartItem u p n s).1.remote,
        ¬(r.user_id = some u ∧ r.product_id = some p))) ∧
    (∀ r ∈ (updateCartItem u p n s).1.mirror,
      r ∈ s.mirror ∨ (0 < n ∧ r.amount = some n)) := by
  constructor
  · intro h
    have he : updateCartItem u p n s = removeFromCart u p s := by
      unfold updateCartItem
      rw [if_pos h]
    refine ⟨he, ?_, ?_⟩
    · intro r hr
      rw [he] at hr
      exact bne_iff_ne.mp (List.mem_filter.mp hr).2
    · intro r hr hand
      rw [he] at hr
      have hcond := (List.mem_filter.mp hr).2
      simp [cartRowMatches, hand.1, hand.2] at hcond
  · by_cases h : n ≤ 0
    · intro r hr
      unfold updateCartItem at hr
      rw [if_pos h] at hr
      exact Or.inl (List.mem_filter.mp hr).1
    · intro r hr
      unfold updateCartItem at hr
      rw [if_neg h] at hr
      rcases hfil : s.remote.filter (cartRowMatches u p) with _ | ⟨r0, rest⟩
      · rw [hfil] at hr
        exact Or.inl hr
      · rcases rest with _ | ⟨r1, rest2⟩
        · rw [hfil] at hr
          obtain ⟨x, hx, hxe⟩ := List.mem_map.mp hr
          by_cases hc : (x.product_id == some p) = true
          · rw [if_pos hc] at hxe
            refine Or.inr ⟨by omega, ?_⟩
            rw [← hxe]
          · rw [if_neg hc] at hxe
            exact Or.inl (hxe ▸ hx)
        · rw [hfil] at hr
          exact Or.inl hr

/-- C3 witness: quantities 0 and -1 both behave as removal on a concrete
cart. -/
theorem c3_set_quantity_nonpositive_removes_witness :
    updateCartItem "user-1" "prod-1" 0 demoCartState
        = removeFromCart "user-1" "prod-1" demoCartState ∧
      updateCartItem "user-1" "prod-1" (-1) demoCartState
        = removeFromCart "user-1" "prod-1" demoCartState :=
  ⟨((c3_set_quantity_nonpositive_removes "user-1" "prod-1" 0 demoCartState).1
      (by decide)).1,
   ((c3_set_quantity_nonpositive_removes "user-1" "prod-1" (-1) demoCartState).1
      (by decide)).1⟩

/-- C1: starting from a cart without product `p`, `add(p, q1)` then
`add(p, q2)` (both succeeding) yields exactly one cart row for `p`, whose
amount is `q1 + q2`; and in general `addToCart` on a product already
present in the mirror delegates to `updateCartItem` with
existing-amount + quantity, which never grows the mirror (no second row
is inserted). -/
theorem c1_cart_add_merge :
    (∀ (u p id1 t1 id2 t2 : String) (q1 q2 : Int) (s : CartState),
        (∀ r ∈ s.mirror, r.product_id ≠ some p) →
        (∀ r ∈ s.remote, ¬(r.user_id = some u ∧ r.product_id = some p)) →
        0 < q1 → 0 < q2 →
          addToCart u p q1 id1 t1 s
            = (⟨s.remote ++ [⟨id1, some u, some p, none, some q1, t1⟩],
                ⟨id1, some u, some p, none, some q1, t1⟩ :: s.mirror⟩, true) ∧
          addToCart u p q2 id2 t2
              ⟨s.remote ++ [⟨id1, some u, some p, none, some q1, t1⟩],
               ⟨id1, some u, some p, none, some q1, t1⟩ :: s.mirror⟩
            = (⟨(s.remote ++ [(⟨id1, some u, some p, none, some q1, t1⟩ : CartRow)]).map
                  (fun x => if cartRowMatches u p x
                    then ⟨id1, some u, some p, none, some (q1 + q2), t1⟩ else x),
                ⟨id1, some u, some p, none, some (q1 + q2), t1⟩ :: s.mirror⟩, true) ∧
          (⟨id1, some u, some p, none, some (q1 + q2), t1⟩ :: s.mirror).countP
              (fun r => r.product_id == some p) = 1) ∧
    (∀ (u p id t : String) (q : Int) (s : CartState) (r0 : CartRow),
        s.mirror.find? (fun item => item.product_id == some p) = some r0 →
          addToCart u p q id t s = updateCartItem u p (jsNumOr r0.amount 0 + q) s ∧
          (0 < jsNumOr r0.amount 0 + q →
            (updateCartItem u p (jsNumOr r0.amount 0 + q) s).1.mirror.length
              = s.mirror.length)) := by
  constructor
  · intro u p id1 t1 id2 t2 q1 q2 s h1 h2 hq1 hq2
    have hfind1 : s.mirror.find? (fun item => item.product_id == some p) = none :=
      List.find?_eq_none.mpr fun x hx hbeq => (h1 x hx) (beq_iff_eq.mp hbeq)
    have hfind2 :
        ((⟨id1, some u, some p, none, some q1, t1⟩ : CartRow) :: s.mirror).find?
            (fun item => item.product_id == some p)
          = some ⟨id1, some u, some p, none, some q1, t1⟩ :=
      List.find?_cons_of_pos _ (by simp)
    have h2nil : s.remote.filter (cartRowMatches u p) = [] := by
      rw [List.filter_eq_nil_iff]
      intro r hr hmatch
      simp [cartRowMatches] at hmatch
      exact h2 r hr hmatch
    have hfil :
        (s.remote ++ [(⟨id1, some u, some p, none, some q1, t1⟩ : CartRow)]).filter
            (cartRowMatches u p)
          = [⟨id1, some u, some p, none, some q1, t1⟩] := by
      rw [List.filter_append, h2nil]
      simp [cartRowMatches]
    have hmap :
        ((⟨id1, some u, some p, none, some q1, t1⟩ : CartRow) :: s.mirror).map
            (fun item => if item.product_id == some p
              then (⟨id1, some u, some p, none, some (q1 + q2), t1⟩ : CartRow) else item)
          = ⟨id1, some u, some p, none, some (q1 + q2), t1⟩ :: s.mirror := by
      rw [List.map_cons, if_pos (by simp),
        map_ite_eq_self _ _ _ fun x hx => beq_eq_false_iff_ne.mpr (h1 x hx)]
    refine ⟨?_, ?_, ?_⟩
    · simp only [addToCart, hfind1]
    · simp only [addToCart, hfind2]
      have hq1' : jsNumOr (some q1) 0 + q2 = q1 + q2 := by
        rw [jsNumOr_zero]; rfl
      rw [hq1']
      simp only [updateCartItem, if_neg (by omega : ¬ q1 + q2 ≤ 0), hfil]
      rw [hmap]
    · rw [List.countP_cons]
      simp only [beq_self_eq_true, if_true]
      rw [List.countP_eq_zero.mpr fun r hr hbeq => (h1 r hr) (beq_iff_eq.mp hbeq)]
  · intro u p id t q s r0 hfind
    constructor
    · simp only [addToCart, hfind]
    · intro hpos
      simp only [updateCartItem, if_neg (by omega : ¬ jsNumOr r0.amount 0 + q ≤ 0)]
      rcases hfil : s.remote.filter (cartRowMatches u p) with _ | ⟨x, rest⟩
      · rfl
      · rcases rest with _ | ⟨y, rest2⟩
        · exact List.length_map _ _
        · rfl

/-- C1 witness: the spec scenario — an empty cart, `add("prod-1", 2)` then
`add("prod-1", 3)` — plus a concrete present-case delegation. -/
theorem c1_cart_add_merge_witness :
    ((⟨"id1", some "user-1", some "prod-1", none, some (2 + 3), "t1"⟩ : CartRow)
        :: ([] : List CartRow)).countP (fun r => r.product_id == some "prod-1") = 1 ∧
      addToCart "user-1" "prod-1" 4 "id9" "t9" demoCartState
        = updateCartItem "user-1" "prod-1" (jsNumOr demoCartRow.amount 0 + 4)
            demoCartState :=
  ⟨(c1_cart_add_merge.1 "user-1" "prod-1" "id1" "t1" "id2" "t2" 2 3 ⟨[], []⟩
      (by decide) (by decide) (by decide) (by decide)).2.2,
   (c1_cart_add_merge.2 "user-1" "prod-1" "id9" "t9" 4 demoCartState demoCartRow
      (by decide)).1⟩

end CyCollects
